import Mathlib

/-!
# Verification of the opportunity screening pipeline

A shallow embedding of the AI stock screener core
(`src/agents/stock_screener.py` and the scan route in
`app/backend/routes/opportunities.py`).

Conventions of the embedding:
* Python floats are modelled as exact rationals (`ℚ`); the float value
  `NaN` that pandas produces for undefined rolling windows is modelled as
  `Option ℚ` with `none` standing for `NaN` (every comparison against
  `NaN` is false, as in IEEE arithmetic).
* A pandas `DataFrame` of price history is modelled by its `close` column
  and an optional `volume` column (`PriceData`); the row count is the
  length of the `close` column.
* The result of `zerodha_api.get_fundamentals` is modelled by
  `FetchResult`: the call can raise (`failure`), return a falsy value
  (`empty`), return a dict containing the key `error` (`withError`), or
  return a data dict without the `error` key (`data`).  In the `data`
  case each field of the dict is `Option ℚ`: `none` means the key is
  absent (so `dict.get(key)` yields `None`).
* Functions that return `None` in Python return `none : Option _`.
-/

/-- Fields of the raw fundamentals dict returned by the provider
(`none` = key absent). -/
structure FundRaw where
  pe_ratio : Option ℚ
  price : Option ℚ
  market_cap : Option ℚ
  total_debt : Option ℚ
  reserves : Option ℚ
  roe : Option ℚ
  book_value_per_share : Option ℚ
  earnings_per_share : Option ℚ
  roce : Option ℚ
  dividend_yield : Option ℚ
  sales : Option ℚ
  net_profit : Option ℚ
deriving DecidableEq

/-- Result of one call to `zerodha_api.get_fundamentals`. -/
inductive FetchResult where
  /-- the call raised an exception -/
  | failure : FetchResult
  /-- the call returned a falsy value (`None` or an empty dict) -/
  | empty : FetchResult
  /-- the call returned a dict containing the key `error` -/
  | withError : FetchResult
  /-- the call returned a non-empty dict without the key `error` -/
  | data : FundRaw → FetchResult
deriving DecidableEq

/-- Python truthiness of `dict.get(key)` for a numeric field: false for a
missing key (`None`) and for the number `0`. -/
def truthy : Option ℚ → Bool
  | none => false
  | some q => decide (q ≠ 0)

/-- The validated fundamentals dict built by
`AIStockScreener.get_fundamental_metrics` (all keys present). -/
structure FundMetrics where
  pe_ratio : ℚ
  debt_to_equity : ℚ
  roe : ℚ
  revenue_growth : ℚ
  market_cap : ℚ
  price : ℚ
  book_value : ℚ
  eps : ℚ
  sector : String
  roce : ℚ
  dividend_yield : ℚ
  sales : ℚ
  net_profit : ℚ
  data_source : String
deriving DecidableEq

/-- `AIStockScreener.get_fundamental_metrics`: returns `none` when the
fetch raised, returned a falsy value, returned an `error` dict, or when
`pe_ratio` or `price` is missing or falsy.  When `market_cap` is absent,
`float(None)` raises `TypeError`, the surrounding `except` catches it and
the method returns `None`; this is the `none` in the `market_cap` match. -/
def get_fundamental_metrics : FetchResult → Option FundMetrics
  | .failure => none
  | .empty => none
  | .withError => none
  | .data f =>
    if !(truthy f.pe_ratio) || !(truthy f.price) then none
    else
      match f.market_cap with
      | none => none
      | some market_cap =>
        let total_debt := f.total_debt.getD 0
        let reserves := f.reserves.getD 0
        let debt_to_equity := if 0 < reserves then total_debt / reserves else 0
        some
          { pe_ratio := f.pe_ratio.getD 0
            debt_to_equity := debt_to_equity
            roe := f.roe.getD 0
            revenue_growth := 10
            market_cap := market_cap
            price := f.price.getD 0
            book_value := f.book_value_per_share.getD 0
            eps := f.earnings_per_share.getD 0
            sector := "Unknown"
            roce := f.roce.getD 0
            dividend_yield := f.dividend_yield.getD 0
            sales := f.sales.getD 0
            net_profit := f.net_profit.getD 0
            data_source := "screener.in" }

/-- The indicator dict returned by
`AIStockScreener.calculate_technical_indicators`.  `rsi = none` models a
float `NaN` in the `rsi` entry. -/
structure TechnicalData where
  rsi : Option ℚ
  macd_signal : String
  moving_avg_trend : String
  volume_surge : Bool
deriving DecidableEq

/-- Price history `DataFrame`: `close` column plus optional `volume`
column; the row count is `close.length`. -/
structure PriceData where
  close : List ℚ
  volume : Option (List ℚ)
deriving DecidableEq

/-- `Series.diff()`: first entry `NaN`, then successive differences. -/
def pandasDiff (xs : List ℚ) : List (Option ℚ) :=
  match xs with
  | [] => []
  | _ :: rest => none :: List.zipWith (fun b a => some (b - a)) rest xs

/-- `delta.where(delta > 0, 0)`: keep positive deltas, replace everything
else (including the leading `NaN`) by `0`. -/
def gainsOf (ds : List (Option ℚ)) : List ℚ :=
  ds.map fun d =>
    match d with
    | none => 0
    | some v => if 0 < v then v else 0

/-- `-delta.where(delta < 0, 0)`: keep negated negative deltas, replace
everything else (including the leading `NaN`) by `0`. -/
def lossesOf (ds : List (Option ℚ)) : List ℚ :=
  ds.map fun d =>
    match d with
    | none => 0
    | some v => if v < 0 then -v else 0

/-- `Series.rolling(window=w).mean()` at index `i` of an all-defined
series: `NaN` (`none`) until `w` observations are available. -/
def rollingMeanAt (w : ℕ) (xs : List ℚ) (i : ℕ) : Option ℚ :=
  if w ≤ i + 1 then some ((((xs.take (i + 1)).drop (i + 1 - w)).sum) / w)
  else none

/-- `Series.rolling(window=w).mean().iloc[-1]`: mean of the last `w`
entries, `NaN` (`none`) when the series is shorter than `w`. -/
def rollingMeanLast (w : ℕ) (xs : List ℚ) : Option ℚ :=
  if w ≤ xs.length then some ((xs.drop (xs.length - w)).sum / w) else none

/-- Value of the float division `gain/loss`: `NaN`, `+inf`, or a number
(the operands are nonnegative, so `-inf` cannot arise). -/
inductive PVal where
  | nan : PVal
  | inf : PVal
  | val : ℚ → PVal

/-- Float division of two rolling means: `NaN` if either operand is
`NaN`; division of a positive number by `0` gives `+inf`; `0/0` gives
`NaN`. -/
def pdiv : Option ℚ → Option ℚ → PVal
  | some a, some b => if b = 0 then (if a = 0 then .nan else .inf) else .val (a / b)
  | _, _ => .nan

/-- `100 - 100/(1 + rs)` in float arithmetic: `NaN` propagates, an
infinite `rs` yields exactly `100`. -/
def rsiOfRs : PVal → Option ℚ
  | .nan => none
  | .inf => some 100
  | .val q => some (100 - 100 / (1 + q))

/-- The full RSI(14) series of a close-price series, one entry per row. -/
def rsiList (closes : List ℚ) : List (Option ℚ) :=
  let ds := pandasDiff closes
  let gains := gainsOf ds
  let losses := lossesOf ds
  (List.range closes.length).map fun i =>
    rsiOfRs (pdiv (rollingMeanAt 14 gains i) (rollingMeanAt 14 losses i))

/-- `rsi.iloc[-1] if not rsi.empty else 50.0`. -/
def rsiLastOf (closes : List ℚ) : Option ℚ :=
  match (rsiList closes).getLast? with
  | some x => x
  | none => some 50

/-- Accumulator recursion for `Series.ewm(span=s).mean()` with the
pandas default `adjust=True`: carries the weighted numerator and the
weight sum. -/
def ewmAux (c : ℚ) : ℚ → ℚ → List ℚ → List ℚ
  | _, _, [] => []
  | num, den, x :: xs =>
    let num2 := x + c * num
    let den2 := 1 + c * den
    num2 / den2 :: ewmAux c num2 den2 xs

/-- `Series.ewm(span=s).mean()` (adjusted weights, decay `1 - 2/(s+1)`). -/
def ewmMean (span : ℕ) (xs : List ℚ) : List ℚ :=
  ewmAux (1 - 2 / ((span : ℚ) + 1)) 0 0 xs

/-- MACD(12,26,9) classification of `calculate_technical_indicators`:
crossovers need the last two bars; fewer than 2 bars gives `NEUTRAL`. -/
def macdSignalOf (closes : List ℚ) : String :=
  let ema12 := ewmMean 12 closes
  let ema26 := ewmMean 26 closes
  let macd := List.zipWith (fun a b => a - b) ema12 ema26
  let signal_line := ewmMean 9 macd
  match macd.reverse, signal_line.reverse with
  | m1 :: m2 :: _, s1 :: s2 :: _ =>
    if s1 < m1 ∧ m2 ≤ s2 then "BULLISH_CROSSOVER"
    else if m1 < s1 ∧ s2 ≤ m2 then "BEARISH_CROSSOVER"
    else if s1 < m1 then "BULLISH"
    else "BEARISH"
  | _, _ => "NEUTRAL"

/-- Moving-average trend classification: requires 50 rows, compares the
last close with the last MA20 and MA50 values. -/
def maTrendOf (closes : List ℚ) : String :=
  if 50 ≤ closes.length then
    match rollingMeanLast 20 closes, rollingMeanLast 50 closes, closes.getLast? with
    | some ma20, some ma50, some p =>
      if ma20 < p ∧ ma50 < ma20 then "STRONG_UPTREND"
      else if ma20 < p then "UPTREND"
      else if p < ma20 ∧ ma20 < ma50 then "STRONG_DOWNTREND"
      else if p < ma20 then "DOWNTREND"
      else "NEUTRAL"
    | _, _, _ => "NEUTRAL"
  else "NEUTRAL"

/-- Volume-surge detection of `calculate_technical_indicators`: needs a
volume column and at least 20 rows; compares the latest volume with
`1.5` times `volume.rolling(20).mean().iloc[-1]` (a window that includes
the latest bar). -/
def volumeSurgeOf (pd : PriceData) : Bool :=
  match pd.volume with
  | none => false
  | some v =>
    if 20 ≤ pd.close.length then
      match v.getLast?, rollingMeanLast 20 v with
      | some c, some a => decide (a * (15 / 10) < c)
      | _, _ => false
    else false

/-- `AIStockScreener.calculate_technical_indicators`.  An empty frame
returns the neutral fallback dict; otherwise each indicator is computed
as in the source (none of the modelled operations raises, so the
`except` fallback is unreachable in the model). -/
def calculate_technical_indicators (pd : PriceData) : TechnicalData :=
  if pd.close.isEmpty then
    { rsi := some 50, macd_signal := "NEUTRAL", moving_avg_trend := "NEUTRAL",
      volume_surge := false }
  else
    { rsi := rsiLastOf pd.close
      macd_signal := macdSignalOf pd.close
      moving_avg_trend := maTrendOf pd.close
      volume_surge := volumeSurgeOf pd }

/-- RSI adjustment of `calculate_ai_scores` (a `NaN` rsi fails every
comparison, so it contributes nothing). -/
def rsiAdj (rsi : Option ℚ) : ℚ :=
  match rsi with
  | none => 0
  | some r =>
    if 30 ≤ r ∧ r ≤ 70 then 20
    else if r < 30 then 15
    else if 70 < r then -15
    else 0

/-- MACD adjustment of `calculate_ai_scores`. -/
def macdAdj (s : String) : ℚ :=
  if s = "BULLISH_CROSSOVER" ∨ s = "BULLISH" then 15
  else if s = "BEARISH_CROSSOVER" ∨ s = "BEARISH" then -15
  else 0

/-- Moving average trend adjustment of `calculate_ai_scores`. -/
def trendAdj (s : String) : ℚ :=
  if s = "STRONG_UPTREND" ∨ s = "UPTREND" then 15
  else if s = "STRONG_DOWNTREND" ∨ s = "DOWNTREND" then -15
  else 0

/-- Volume surge bonus of `calculate_ai_scores`. -/
def volAdj (b : Bool) : ℚ := if b then 10 else 0

/-- P/E adjustment of `calculate_ai_scores`. -/
def peAdj (p : ℚ) : ℚ :=
  if 10 ≤ p ∧ p ≤ 20 then 20
  else if p < 10 then 15
  else if 30 < p then -15
  else 0

/-- ROE adjustment of `calculate_ai_scores`. -/
def roeAdj (r : ℚ) : ℚ :=
  if 20 < r then 20
  else if 15 < r then 10
  else if r < 10 then -10
  else 0

/-- Debt-to-equity adjustment of `calculate_ai_scores`. -/
def deAdj (d : ℚ) : ℚ :=
  if d < 3 / 10 then 15
  else if 1 < d then -15
  else 0

/-- Revenue growth adjustment of `calculate_ai_scores`. -/
def growthAdj (g : ℚ) : ℚ :=
  if 20 < g then 15
  else if 10 < g then 10
  else if g < 5 then -10
  else 0

/-- `max(0, min(100, x))`. -/
def clampScore (x : ℚ) : ℚ := max 0 (min 100 x)

/-- `AIStockScreener.calculate_ai_scores`: base 50 for each component,
additive adjustments, clamp each component to `[0, 100]`, overall score
is the mean of the two clamped components.  Returned as
`(technical_score, fundamental_score, overall_score)`. -/
def calculate_ai_scores (t : TechnicalData) (f : FundMetrics) : ℚ × ℚ × ℚ :=
  let technical_score :=
    clampScore (50 + rsiAdj t.rsi + macdAdj t.macd_signal
      + trendAdj t.moving_avg_trend + volAdj t.volume_surge)
  let fundamental_score :=
    clampScore (50 + peAdj f.pe_ratio + roeAdj f.roe
      + deAdj f.debt_to_equity + growthAdj f.revenue_growth)
  (technical_score, fundamental_score, (technical_score + fundamental_score) / 2)

/-- The screening signals. -/
inductive ScreenerSignal where
  | STRONG_BUY : ScreenerSignal
  | BUY : ScreenerSignal
  | HOLD : ScreenerSignal
  | SELL : ScreenerSignal
  | STRONG_SELL : ScreenerSignal
deriving DecidableEq

/-- Signal and confidence from the overall score, first match wins
(the threshold chain of `generate_signal_and_reasoning`). -/
def signal_and_confidence (overall_score : ℚ) : ScreenerSignal × ℚ :=
  if 80 ≤ overall_score then (.STRONG_BUY, 9 / 10)
  else if 65 ≤ overall_score then (.BUY, 7 / 10)
  else if 35 ≤ overall_score then (.HOLD, 5 / 10)
  else if 20 ≤ overall_score then (.SELL, 7 / 10)
  else (.STRONG_SELL, 9 / 10)

/-- Is the float comparison `x < c` true, where `x` may be `NaN`? -/
def optLtConst (x : Option ℚ) (c : ℚ) : Bool :=
  match x with
  | none => false
  | some r => decide (r < c)

/-- Is the float comparison `c < x` true, where `x` may be `NaN`? -/
def optGtConst (x : Option ℚ) (c : ℚ) : Bool :=
  match x with
  | none => false
  | some r => decide (c < r)

/-- Result tuple of `generate_signal_and_reasoning`. -/
structure GenResult where
  signal : ScreenerSignal
  confidence : ℚ
  buy_reasons : List String
  risk_factors : List String
  target_price : ℚ
  stop_loss : ℚ
deriving DecidableEq

/-- `AIStockScreener.generate_signal_and_reasoning`: signal and
confidence from the overall score, reason and risk lists accumulated in
evaluation order, and fixed percentage target and stop. -/
def generate_signal_and_reasoning (t : TechnicalData) (f : FundMetrics)
    (overall_score : ℚ) (current_price : ℚ) : GenResult :=
  let sc := signal_and_confidence overall_score
  let buy_reasons :=
    (if optLtConst t.rsi 35 then
      ["RSI indicates oversold condition - potential reversal"] else [])
    ++ (if t.macd_signal = "BULLISH_CROSSOVER" ∨ t.macd_signal = "BULLISH" then
      ["MACD showing bullish momentum"] else [])
    ++ (if t.moving_avg_trend = "STRONG_UPTREND" ∨ t.moving_avg_trend = "UPTREND" then
      ["Strong upward price trend"] else [])
    ++ (if t.volume_surge then
      ["Unusual volume surge indicates institutional interest"] else [])
    ++ (if f.pe_ratio < 15 then
      ["Attractive valuation with low P/E ratio"] else [])
    ++ (if 18 < f.roe then
      ["Strong return on equity indicates efficient management"] else [])
    ++ (if 15 < f.revenue_growth then
      ["Strong revenue growth trajectory"] else [])
  let risk_factors :=
    (if optGtConst t.rsi 75 then
      ["RSI indicates overbought condition - potential correction"] else [])
    ++ (if 1 < f.debt_to_equity then
      ["High debt levels may impact financial stability"] else [])
    ++ (if 25 < f.pe_ratio then
      ["High valuation may limit upside potential"] else [])
    ++ (if f.revenue_growth < 5 then
      ["Slow revenue growth may indicate business challenges"] else [])
  let ts :=
    if sc.1 = .STRONG_BUY ∨ sc.1 = .BUY then
      (current_price * (115 / 100), current_price * (92 / 100))
    else
      (current_price * (95 / 100), current_price * (105 / 100))
  { signal := sc.1, confidence := sc.2, buy_reasons := buy_reasons,
    risk_factors := risk_factors, target_price := ts.1, stop_loss := ts.2 }

/-- A screened `StockOpportunity`. -/
structure StockOpportunity where
  ticker : String
  company_name : String
  current_price : ℚ
  market_cap : ℚ
  sector : String
  rsi : Option ℚ
  macd_signal : String
  moving_avg_trend : String
  volume_surge : Bool
  pe_ratio : ℚ
  debt_to_equity : ℚ
  roe : ℚ
  revenue_growth : ℚ
  technical_score : ℚ
  fundamental_score : ℚ
  overall_score : ℚ
  signal : ScreenerSignal
  confidence : ℚ
  buy_reasons : List String
  risk_factors : List String
  target_price : ℚ
  stop_loss : ℚ
deriving DecidableEq

/-- External inputs consumed when screening one symbol: the fundamentals
fetch outcome and the price-history fetch outcome (`none` means
`get_price_data` raised, which the source replaces by an empty frame). -/
structure ScreenInput where
  ticker : String
  company_name : String
  fetch : FetchResult
  priceFetch : Option PriceData
deriving DecidableEq

/-- `AIStockScreener.screen_stock`: fundamentals gate inclusion
(`none` when `get_fundamental_metrics` returns `None`); technical
indicators, scores, signal and targets assemble the opportunity. -/
def screen_stock (inp : ScreenInput) : Option StockOpportunity :=
  match get_fundamental_metrics inp.fetch with
  | none => none
  | some fd =>
    let price_data := inp.priceFetch.getD { close := [], volume := none }
    let td := calculate_technical_indicators price_data
    let scores := calculate_ai_scores td fd
    let current_price := fd.price
    let g := generate_signal_and_reasoning td fd scores.2.2 current_price
    some
      { ticker := inp.ticker
        company_name := if inp.company_name = "" then inp.ticker else inp.company_name
        current_price := current_price
        market_cap := fd.market_cap
        sector := fd.sector
        rsi := td.rsi
        macd_signal := td.macd_signal
        moving_avg_trend := td.moving_avg_trend
        volume_surge := td.volume_surge
        pe_ratio := fd.pe_ratio
        debt_to_equity := fd.debt_to_equity
        roe := fd.roe
        revenue_growth := fd.revenue_growth
        technical_score := scores.1
        fundamental_score := scores.2.1
        overall_score := scores.2.2
        signal := g.signal
        confidence := g.confidence
        buy_reasons := g.buy_reasons
        risk_factors := g.risk_factors
        target_price := g.target_price
        stop_loss := g.stop_loss }

/-- Descending-score order used by the final sort of
`scan_opportunities` (`sort(key=..., reverse=True)`). -/
def scoreGE (a b : StockOpportunity) : Prop :=
  b.overall_score ≤ a.overall_score

instance : DecidableRel scoreGE :=
  fun a b => inferInstanceAs (Decidable (b.overall_score ≤ a.overall_score))

instance : IsTotal StockOpportunity scoreGE :=
  ⟨fun a b => le_total b.overall_score a.overall_score⟩

instance : IsTrans StockOpportunity scoreGE :=
  ⟨fun _ _ _ hab hbc => le_trans hbc hab⟩

/-- Result aggregation of `AIStockScreener.scan_opportunities` given the
per-candidate screening outcomes: keep the results that are
opportunities (failed or excluded candidates are skipped) and sort
descending by overall score. -/
def scan_opportunities (inputs : List ScreenInput) : List StockOpportunity :=
  ((inputs.map screen_stock).filterMap id).insertionSort scoreGE

/-- The per-candidate decision of
`AIStockScreener._filter_by_market_metrics`: keep on exception, falsy or
`error` result; in the data branch keep exactly when
`fundamentals.get('market_cap', 0)` falls in `[500, 50000]`. -/
def keep_by_market_metrics : FetchResult → Bool
  | .failure => true
  | .empty => true
  | .withError => true
  | .data f =>
    let market_cap := f.market_cap.getD 0
    decide (500 ≤ market_cap ∧ market_cap ≤ 50000)

/-- `AIStockScreener._filter_by_market_metrics`: each candidate is
paired with the outcome of its fundamentals fetch. -/
def filter_by_market_metrics (stocks : List (String × FetchResult)) : List String :=
  stocks.filterMap fun p => if keep_by_market_metrics p.2 then some p.1 else none

/-- Labels for the atomic steps of the scan route
(`app/backend/routes/opportunities.py`).  The route handler body has no
`await`, so one request is a single atomic step; the background task
sets the in-progress flag synchronously when it starts running and
clears it in its `finally` block. -/
inductive ScanLabel where
  | reqInProgress : ScanLabel
  | reqCached : ScanLabel
  | reqStarted : ScanLabel
  | beginScan : ScanLabel
  | finishOk : ScanLabel
  | finishErr : ScanLabel
deriving DecidableEq

/-- Module-level mutable state of the scan route: the
`_scan_in_progress` flag, the number of background tasks scheduled by
`add_task` that have not yet started, and the number of
`_background_scan` runs currently executing. -/
structure RouteState where
  scan_in_progress : Bool
  queued : ℕ
  running : ℕ
deriving DecidableEq

/-- Interleaving semantics of the scan route on the shared event loop:
* `reqInProgress` — a request seeing the flag set is answered with
  `scan_in_progress` status and changes nothing;
* `reqCached` — a request seeing the flag clear and a fresh cache is
  answered from the cache and schedules nothing;
* `reqStarted` — a request seeing the flag clear schedules one
  background scan (the flag is not set here: it is set only when the
  task itself starts);
* `beginScan` — a scheduled background task starts: it sets the flag
  and becomes a running scan;
* `finishOk` / `finishErr` — a running scan ends normally or by an
  exception; either way the `finally` block clears the flag. -/
inductive RouteStep : RouteState → ScanLabel → RouteState → Prop where
  | reqInProgress (s : RouteState) : s.scan_in_progress = true →
      RouteStep s .reqInProgress s
  | reqCached (s : RouteState) : s.scan_in_progress = false →
      RouteStep s .reqCached s
  | reqStarted (s : RouteState) : s.scan_in_progress = false →
      RouteStep s .reqStarted { s with queued := s.queued + 1 }
  | beginScan (s : RouteState) : 0 < s.queued →
      RouteStep s .beginScan
        { scan_in_progress := true, queued := s.queued - 1, running := s.running + 1 }
  | finishOk (s : RouteState) : 0 < s.running →
      RouteStep s .finishOk
        { scan_in_progress := false, queued := s.queued, running := s.running - 1 }
  | finishErr (s : RouteState) : 0 < s.running →
      RouteStep s .finishErr
        { scan_in_progress := false, queued := s.queued, running := s.running - 1 }

/-- States reachable from the initial module state (flag clear, nothing
scheduled, nothing running). -/
inductive RouteReachable : RouteState → Prop where
  | init : RouteReachable { scan_in_progress := false, queued := 0, running := 0 }
  | step {s : RouteState} {l : ScanLabel} {s2 : RouteState} :
      RouteReachable s → RouteStep s l s2 → RouteReachable s2

/-- `clampScore` is nonnegative. -/
theorem clampScore_nonneg (x : ℚ) : 0 ≤ clampScore x := le_max_left 0 _

/-- `clampScore` is at most 100. -/
theorem clampScore_le_100 (x : ℚ) : clampScore x ≤ 100 :=
  max_le (by norm_num) (min_le_left _ _)

/-- C2: for every technical and fundamental feature input,
`calculate_ai_scores` clamps the technical and the fundamental score
each to `[0, 100]`, returns the overall score as the arithmetic mean of
the two clamped component scores, and on the scenario
`RSI=25, MACD=BULLISH, trend=UPTREND, volumeSurge=true` the technical
score is `50+15+15+15+10 = 105` clamped to `100`. -/
theorem calculate_ai_scores_clamps_then_averages :
    ∀ (t : TechnicalData) (f : FundMetrics),
    0 ≤ (calculate_ai_scores t f).1 ∧ (calculate_ai_scores t f).1 ≤ 100 ∧
    0 ≤ (calculate_ai_scores t f).2.1 ∧ (calculate_ai_scores t f).2.1 ≤ 100 ∧
    (calculate_ai_scores t f).2.2 =
      ((calculate_ai_scores t f).1 + (calculate_ai_scores t f).2.1) / 2 ∧
    (calculate_ai_scores
      { rsi := some 25, macd_signal := "BULLISH", moving_avg_trend := "UPTREND",
        volume_surge := true } f).1 = 100 := by
  intro t f
  refine ⟨clampScore_nonneg _, clampScore_le_100 _, clampScore_nonneg _,
    clampScore_le_100 _, rfl, ?_⟩
  show clampScore (50 + rsiAdj (some 25) + macdAdj "BULLISH" + trendAdj "UPTREND"
    + volAdj true) = 100
  rw [show (50 + rsiAdj (some 25) + macdAdj "BULLISH" + trendAdj "UPTREND"
    + volAdj true : ℚ) = 105 from by norm_num [rsiAdj, macdAdj, trendAdj, volAdj]]
  unfold clampScore
  rw [min_eq_left (by norm_num), max_eq_right (by norm_num)]

/-- Threshold chain, first branch. -/
theorem sac_ge_80 (os : ℚ) (h : 80 ≤ os) :
    signal_and_confidence os = (.STRONG_BUY, 9 / 10) := by
  unfold signal_and_confidence; rw [if_pos h]

/-- Threshold chain, second branch. -/
theorem sac_ge_65 (os : ℚ) (h1 : os < 80) (h2 : 65 ≤ os) :
    signal_and_confidence os = (.BUY, 7 / 10) := by
  unfold signal_and_confidence
  rw [if_neg (by linarith), if_pos h2]

/-- Threshold chain, third branch. -/
theorem sac_ge_35 (os : ℚ) (h1 : os < 65) (h2 : 35 ≤ os) :
    signal_and_confidence os = (.HOLD, 5 / 10) := by
  unfold signal_and_confidence
  rw [if_neg (by linarith), if_neg (by linarith), if_pos h2]

/-- Threshold chain, fourth branch. -/
theorem sac_ge_20 (os : ℚ) (h1 : os < 35) (h2 : 20 ≤ os) :
    signal_and_confidence os = (.SELL, 7 / 10) := by
  unfold signal_and_confidence
  rw [if_neg (by linarith), if_neg (by linarith), if_neg (by linarith), if_pos h2]

/-- Threshold chain, last branch. -/
theorem sac_lt_20 (os : ℚ) (h : os < 20) :
    signal_and_confidence os = (.STRONG_SELL, 9 / 10) := by
  unfold signal_and_confidence
  rw [if_neg (by linarith), if_neg (by linarith), if_neg (by linarith),
    if_neg (by linarith)]

/-- The signal field of `generate_signal_and_reasoning` is the threshold
classification of the overall score. -/
theorem gsr_signal (t : TechnicalData) (f : FundMetrics) (os p : ℚ) :
    (generate_signal_and_reasoning t f os p).signal = (signal_and_confidence os).1 := rfl

/-- The confidence field of `generate_signal_and_reasoning` is the
threshold confidence of the overall score. -/
theorem gsr_confidence (t : TechnicalData) (f : FundMetrics) (os p : ℚ) :
    (generate_signal_and_reasoning t f os p).confidence = (signal_and_confidence os).2 := rfl

/-- The target price of `generate_signal_and_reasoning` as a function of
the computed signal. -/
theorem gsr_target (t : TechnicalData) (f : FundMetrics) (os p : ℚ) :
    (generate_signal_and_reasoning t f os p).target_price =
      if (signal_and_confidence os).1 = ScreenerSignal.STRONG_BUY ∨
          (signal_and_confidence os).1 = ScreenerSignal.BUY then
        p * (115 / 100)
      else p * (95 / 100) := by
  show (if (signal_and_confidence os).1 = ScreenerSignal.STRONG_BUY ∨
      (signal_and_confidence os).1 = ScreenerSignal.BUY then
        (p * (115 / 100), p * (92 / 100))
      else (p * (95 / 100), p * (105 / 100))).1 = _
  split <;> rfl

/-- The stop loss of `generate_signal_and_reasoning` as a function of
the computed signal. -/
theorem gsr_stop (t : TechnicalData) (f : FundMetrics) (os p : ℚ) :
    (generate_signal_and_reasoning t f os p).stop_loss =
      if (signal_and_confidence os).1 = ScreenerSignal.STRONG_BUY ∨
          (signal_and_confidence os).1 = ScreenerSignal.BUY then
        p * (92 / 100)
      else p * (105 / 100) := by
  show (if (signal_and_confidence os).1 = ScreenerSignal.STRONG_BUY ∨
      (signal_and_confidence os).1 = ScreenerSignal.BUY then
        (p * (115 / 100), p * (92 / 100))
      else (p * (95 / 100), p * (105 / 100))).2 = _
  split <;> rfl

/-- C3: `generate_signal_and_reasoning` assigns signals by first-match
thresholds checked high to low (score ≥ 80 gives STRONG_BUY with
confidence 0.9, ≥ 65 gives BUY with 0.7, ≥ 35 gives HOLD with 0.5,
≥ 20 gives SELL with 0.7, otherwise STRONG_SELL with 0.9), and
STRONG_BUY/BUY signals get target `price × 1.15` and stop
`price × 0.92`, while all other signals get target `price × 0.95` and
stop `price × 1.05`. -/
theorem generate_signal_thresholds_and_targets :
    ∀ (t : TechnicalData) (f : FundMetrics) (os p : ℚ),
    (80 ≤ os → (generate_signal_and_reasoning t f os p).signal = .STRONG_BUY ∧
      (generate_signal_and_reasoning t f os p).confidence = 9 / 10) ∧
    (os < 80 → 65 ≤ os → (generate_signal_and_reasoning t f os p).signal = .BUY ∧
      (generate_signal_and_reasoning t f os p).confidence = 7 / 10) ∧
    (os < 65 → 35 ≤ os → (generate_signal_and_reasoning t f os p).signal = .HOLD ∧
      (generate_signal_and_reasoning t f os p).confidence = 5 / 10) ∧
    (os < 35 → 20 ≤ os → (generate_signal_and_reasoning t f os p).signal = .SELL ∧
      (generate_signal_and_reasoning t f os p).confidence = 7 / 10) ∧
    (os < 20 → (generate_signal_and_reasoning t f os p).signal = .STRONG_SELL ∧
      (generate_signal_and_reasoning t f os p).confidence = 9 / 10) ∧
    ((generate_signal_and_reasoning t f os p).signal = .STRONG_BUY ∨
        (generate_signal_and_reasoning t f os p).signal = .BUY →
      (generate_signal_and_reasoning t f os p).target_price = p * (115 / 100) ∧
      (generate_signal_and_reasoning t f os p).stop_loss = p * (92 / 100)) ∧
    (¬((generate_signal_and_reasoning t f os p).signal = .STRONG_BUY ∨
        (generate_signal_and_reasoning t f os p).signal = .BUY) →
      (generate_signal_and_reasoning t f os p).target_price = p * (95 / 100) ∧
      (generate_signal_and_reasoning t f os p).stop_loss = p * (105 / 100)) := by
  intro t f os p
  refine ⟨?_, ?_, ?_, ?_, ?_, ?_, ?_⟩
  · intro h; rw [gsr_signal, gsr_confidence, sac_ge_80 os h]; exact ⟨rfl, rfl⟩
  · intro h1 h2; rw [gsr_signal, gsr_confidence, sac_ge_65 os h1 h2]; exact ⟨rfl, rfl⟩
  · intro h1 h2; rw [gsr_signal, gsr_confidence, sac_ge_35 os h1 h2]; exact ⟨rfl, rfl⟩
  · intro h1 h2; rw [gsr_signal, gsr_confidence, sac_ge_20 os h1 h2]; exact ⟨rfl, rfl⟩
  · intro h; rw [gsr_signal, gsr_confidence, sac_lt_20 os h]; exact ⟨rfl, rfl⟩
  · intro h
    rw [gsr_signal] at h
    rw [gsr_target, gsr_stop, if_pos h, if_pos h]; exact ⟨rfl, rfl⟩
  · intro h
    rw [gsr_signal] at h
    rw [gsr_target, gsr_stop, if_neg h, if_neg h]; exact ⟨rfl, rfl⟩

/-- Closed instance of the C3 theorem: a score of 85 yields STRONG_BUY
with confidence 0.9 and target `100 × 1.15`. -/
theorem generate_signal_thresholds_and_targets_witness :
    (generate_signal_and_reasoning
      { rsi := some 50, macd_signal := "NEUTRAL", moving_avg_trend := "NEUTRAL",
        volume_surge := false }
      { pe_ratio := 15, debt_to_equity := 0, roe := 0, revenue_growth := 10,
        market_cap := 1000, price := 100, book_value := 0, eps := 0,
        sector := "Unknown", roce := 0, dividend_yield := 0, sales := 0,
        net_profit := 0, data_source := "screener.in" } 85 100).signal =
      .STRONG_BUY ∧
    (generate_signal_and_reasoning
      { rsi := some 50, macd_signal := "NEUTRAL", moving_avg_trend := "NEUTRAL",
        volume_surge := false }
      { pe_ratio := 15, debt_to_equity := 0, roe := 0, revenue_growth := 10,
        market_cap := 1000, price := 100, book_value := 0, eps := 0,
        sector := "Unknown", roce := 0, dividend_yield := 0, sales := 0,
        net_profit := 0, data_source := "screener.in" } 85 100).target_price =
      100 * (115 / 100) := by
  have h := generate_signal_thresholds_and_targets
    { rsi := some 50, macd_signal := "NEUTRAL", moving_avg_trend := "NEUTRAL",
      volume_surge := false }
    { pe_ratio := 15, debt_to_equity := 0, roe := 0, revenue_growth := 10,
      market_cap := 1000, price := 100, book_value := 0, eps := 0,
      sector := "Unknown", roce := 0, dividend_yield := 0, sales := 0,
      net_profit := 0, data_source := "screener.in" } 85 100
  have h1 := h.1 (by norm_num)
  exact ⟨h1.1, (h.2.2.2.2.2.1 (Or.inl h1.1)).1⟩

/-- C4: the opportunity list returned by a scan is sorted in
non-increasing order of overall score: pairwise along the list, every
earlier opportunity scores at least every later one. -/
theorem scan_opportunities_sorted_desc :
    ∀ inputs : List ScreenInput,
    List.Sorted (fun a b : StockOpportunity => a.overall_score ≥ b.overall_score)
      (scan_opportunities inputs) :=
  fun _ => List.sorted_insertionSort scoreGE _

/-- A fundamentals fetch outcome that fails the validity gate of
`get_fundamental_metrics` before any metric is extracted: an exception,
a falsy result, an `error` dict, or a dict whose `pe_ratio` or `price`
is missing or falsy. -/
def badFetch : FetchResult → Bool
  | .failure => true
  | .empty => true
  | .withError => true
  | .data f => !(truthy f.pe_ratio) || !(truthy f.price)

/-- A fetch failing the validity gate yields no fundamentals. -/
theorem gfm_none_of_bad (fr : FetchResult) (h : badFetch fr = true) :
    get_fundamental_metrics fr = none := by
  cases fr with
  | failure => rfl
  | empty => rfl
  | withError => rfl
  | data f =>
    simp only [badFetch] at h
    simp only [get_fundamental_metrics]
    rw [if_pos h]

/-- Without fundamentals, `screen_stock` skips the symbol. -/
theorem screen_stock_none_of_gfm_none (inp : ScreenInput)
    (h : get_fundamental_metrics inp.fetch = none) : screen_stock inp = none := by
  unfold screen_stock
  rw [h]

/-- Every produced opportunity carries the ticker of its input. -/
theorem screen_stock_ticker (inp : ScreenInput) (o : StockOpportunity)
    (h : screen_stock inp = some o) : o.ticker = inp.ticker := by
  unfold screen_stock at h
  cases hg : get_fundamental_metrics inp.fetch with
  | none => rw [hg] at h; exact absurd h (by simp)
  | some fd =>
    rw [hg] at h
    injection h with h2
    rw [← h2]

/-- Every member of the scan output comes from a screened input. -/
theorem scan_opportunities_mem (inputs : List ScreenInput) (o : StockOpportunity)
    (ho : o ∈ scan_opportunities inputs) :
    ∃ inp ∈ inputs, screen_stock inp = some o := by
  rw [scan_opportunities, List.mem_insertionSort] at ho
  rcases List.mem_filterMap.mp ho with ⟨x, hx, hid⟩
  rcases List.mem_map.mp hx with ⟨inp, hinp, hsx⟩
  exact ⟨inp, hinp, by rw [hsx]; exact hid⟩

/-- C1: a symbol whose fundamentals fetch errors out or lacks a truthy
`pe_ratio` or `price` is never screened into an opportunity and is
absent from the final scan list, regardless of its technical data; no
fallback fundamentals are substituted (the screening result is `none`,
not an opportunity with defaults). -/
theorem invalid_fundamentals_symbol_absent :
    ∀ (inputs : List ScreenInput) (t : String),
    (∀ inp ∈ inputs, inp.ticker = t → badFetch inp.fetch = true) →
    (∀ inp ∈ inputs, inp.ticker = t → screen_stock inp = none) ∧
    (∀ o ∈ scan_opportunities inputs, o.ticker ≠ t) := by
  intro inputs t h
  refine ⟨fun inp hm ht =>
    screen_stock_none_of_gfm_none _ (gfm_none_of_bad _ (h inp hm ht)), ?_⟩
  intro o ho hot
  rcases scan_opportunities_mem inputs o ho with ⟨inp, hinp, hss⟩
  have hti : o.ticker = inp.ticker := screen_stock_ticker _ _ hss
  have hnone : screen_stock inp = none :=
    screen_stock_none_of_gfm_none _ (gfm_none_of_bad _ (h inp hinp (by rw [← hti, hot])))
  rw [hnone] at hss
  exact Option.noConfusion hss

/-- The raw fundamentals dict used by the concrete witnesses: valid
`pe_ratio`, `price` and `market_cap`, every other key absent. -/
def fundW : FundRaw :=
  { pe_ratio := some 12
    price := some 100
    market_cap := some 1000
    total_debt := none
    reserves := none
    roe := none
    book_value_per_share := none
    earnings_per_share := none
    roce := none
    dividend_yield := none
    sales := none
    net_profit := none }

/-- Witness input with valid fundamentals and a failed price fetch. -/
def inpGood : ScreenInput :=
  { ticker := "ABC", company_name := "", fetch := .data fundW, priceFetch := none }

/-- Witness input whose fundamentals fetch returned an error dict. -/
def inpBad : ScreenInput :=
  { ticker := "BAD", company_name := "", fetch := .withError, priceFetch := none }

/-- Fallback record used only to read a concrete screening result. -/
def defaultOpp : StockOpportunity :=
  { ticker := "", company_name := "", current_price := 0, market_cap := 0,
    sector := "", rsi := none, macd_signal := "", moving_avg_trend := "",
    volume_surge := false, pe_ratio := 0, debt_to_equity := 0, roe := 0,
    revenue_growth := 0, technical_score := 0, fundamental_score := 0,
    overall_score := 0, signal := .HOLD, confidence := 0, buy_reasons := [],
    risk_factors := [], target_price := 0, stop_loss := 0 }

/-- The concrete opportunity produced for `inpGood`. -/
def oppGood : StockOpportunity := (screen_stock inpGood).getD defaultOpp

/-- Closed instance of the C1 theorem: the error-fetch symbol is
screened to `none`, and the surviving opportunity of a two-symbol scan
does not carry its ticker. -/
theorem invalid_fundamentals_symbol_absent_witness :
    screen_stock inpBad = none ∧ oppGood.ticker ≠ "BAD" := by
  have h := invalid_fundamentals_symbol_absent [inpBad, inpGood] "BAD" (by
    intro inp hm hticker
    rcases List.mem_cons.mp hm with h1 | h1
    · rw [h1]; rfl
    · have h2 := List.mem_singleton.mp h1
      rw [h2] at hticker
      exact absurd hticker (by decide))
  refine ⟨h.1 inpBad (List.mem_cons_self _ _) rfl, h.2 oppGood ?_⟩
  show oppGood ∈ scan_opportunities [inpBad, inpGood]
  have : scan_opportunities [inpBad, inpGood] = [oppGood] := rfl
  rw [this]
  exact List.mem_singleton.mpr rfl

/-- Valid fundamentals always carry the constant revenue growth 10 and
the constant sector `Unknown`. -/
theorem gfm_growth_sector (fr : FetchResult) (fd : FundMetrics)
    (h : get_fundamental_metrics fr = some fd) :
    fd.revenue_growth = 10 ∧ fd.sector = "Unknown" := by
  cases fr with
  | failure => exact Option.noConfusion h
  | empty => exact Option.noConfusion h
  | withError => exact Option.noConfusion h
  | data f =>
    simp only [get_fundamental_metrics] at h
    by_cases hc : (!truthy f.pe_ratio || !truthy f.price) = true
    · rw [if_pos hc] at h; exact Option.noConfusion h
    · rw [if_neg hc] at h
      cases hm : f.market_cap with
      | none => rw [hm] at h; exact Option.noConfusion h
      | some mc =>
        rw [hm] at h
        injection h with h2
        rw [← h2]
        exact ⟨rfl, rfl⟩

/-- Membership in a conditional singleton. -/
theorem mem_ite_singleton {x s : String} {c : Prop} [Decidable c] :
    x ∈ (if c then [s] else ([] : List String)) ↔ c ∧ x = s := by
  by_cases h : c
  · rw [if_pos h]; simp [h]
  · rw [if_neg h]; simp [h]

/-- The growth buy reason needs revenue growth above 15. -/
theorem growth_reason_not_mem (t : TechnicalData) (f : FundMetrics) (os p : ℚ)
    (h : ¬ 15 < f.revenue_growth) :
    "Strong revenue growth trajectory" ∉
      (generate_signal_and_reasoning t f os p).buy_reasons := by
  simp only [generate_signal_and_reasoning, List.mem_append, mem_ite_singleton]
  push_neg
  refine ⟨?_, fun hgt _ => absurd hgt h⟩
  refine ⟨⟨⟨⟨⟨?_, ?_⟩, ?_⟩, ?_⟩, ?_⟩, ?_⟩ <;> exact fun _ => by decide

/-- The growth risk factor needs revenue growth below 5. -/
theorem growth_risk_not_mem (t : TechnicalData) (f : FundMetrics) (os p : ℚ)
    (h : ¬ f.revenue_growth < 5) :
    "Slow revenue growth may indicate business challenges" ∉
      (generate_signal_and_reasoning t f os p).risk_factors := by
  simp only [generate_signal_and_reasoning, List.mem_append, mem_ite_singleton]
  push_neg
  refine ⟨?_, fun hlt _ => absurd hlt h⟩
  refine ⟨⟨?_, ?_⟩, ?_⟩ <;> exact fun _ => by decide

/-- C9: every opportunity produced by `screen_stock` has
`revenue_growth = 10` and `sector = "Unknown"`, independent of the
symbol and the provider data; hence the revenue-growth score adjustment
contributes nothing and the growth buy reason and growth risk factor
never appear. -/
theorem screened_opportunity_constant_growth_sector :
    ∀ (inp : ScreenInput) (o : StockOpportunity),
    screen_stock inp = some o →
    o.revenue_growth = 10 ∧ o.sector = "Unknown" ∧
    growthAdj o.revenue_growth = 0 ∧
    "Strong revenue growth trajectory" ∉ o.buy_reasons ∧
    "Slow revenue growth may indicate business challenges" ∉ o.risk_factors := by
  intro inp o h
  unfold screen_stock at h
  cases hg : get_fundamental_metrics inp.fetch with
  | none => rw [hg] at h; exact Option.noConfusion h
  | some fd =>
    rw [hg] at h
    injection h with h2
    obtain ⟨hgr, hsec⟩ := gfm_growth_sector _ _ hg
    have hrg : o.revenue_growth = fd.revenue_growth := by rw [← h2]
    have hs : o.sector = fd.sector := by rw [← h2]
    have hbr : o.buy_reasons =
        (generate_signal_and_reasoning
          (calculate_technical_indicators
            (inp.priceFetch.getD { close := [], volume := none })) fd
          (calculate_ai_scores
            (calculate_technical_indicators
              (inp.priceFetch.getD { close := [], volume := none })) fd).2.2
          fd.price).buy_reasons := by rw [← h2]
    have hrf : o.risk_factors =
        (generate_signal_and_reasoning
          (calculate_technical_indicators
            (inp.priceFetch.getD { close := [], volume := none })) fd
          (calculate_ai_scores
            (calculate_technical_indicators
              (inp.priceFetch.getD { close := [], volume := none })) fd).2.2
          fd.price).risk_factors := by rw [← h2]
    refine ⟨by rw [hrg, hgr], by rw [hs, hsec], ?_, ?_, ?_⟩
    · rw [hrg, hgr]
      norm_num [growthAdj]
    · rw [hbr]
      exact growth_reason_not_mem _ _ _ _ (by rw [hgr]; norm_num)
    · rw [hrf]
      exact growth_risk_not_mem _ _ _ _ (by rw [hgr]; norm_num)

/-- Closed instance of the C9 theorem at the concrete witness input. -/
theorem screened_opportunity_constant_growth_sector_witness :
    oppGood.revenue_growth = 10 ∧ oppGood.sector = "Unknown" ∧
    growthAdj oppGood.revenue_growth = 0 ∧
    "Strong revenue growth trajectory" ∉ oppGood.buy_reasons ∧
    "Slow revenue growth may indicate business challenges" ∉ oppGood.risk_factors :=
  screened_opportunity_constant_growth_sector inpGood oppGood rfl

/-- C10: a fundamentals dict whose `pe_ratio` or `price` is the number
`0` (present but falsy) fails the truthiness check of
`get_fundamental_metrics`, so the symbol is excluded from screening. -/
theorem zero_pe_or_price_excluded :
    ∀ (inp : ScreenInput) (f : FundRaw),
    inp.fetch = .data f →
    f.pe_ratio = some 0 ∨ f.price = some 0 →
    get_fundamental_metrics inp.fetch = none ∧ screen_stock inp = none := by
  intro inp f hf h
  have hb : badFetch inp.fetch = true := by
    rw [hf]
    simp only [badFetch]
    rcases h with h | h <;> rw [h] <;> simp [truthy]
  exact ⟨gfm_none_of_bad _ hb, screen_stock_none_of_gfm_none _ (gfm_none_of_bad _ hb)⟩

/-- Raw fundamentals dict with a present but zero P/E. -/
def fundZeroPe : FundRaw :=
  { pe_ratio := some 0
    price := some 50
    market_cap := some 1000
    total_debt := none
    reserves := none
    roe := none
    book_value_per_share := none
    earnings_per_share := none
    roce := none
    dividend_yield := none
    sales := none
    net_profit := none }

/-- Witness input whose fundamentals carry `pe_ratio = 0`. -/
def inpZeroPe : ScreenInput :=
  { ticker := "ZPE", company_name := "", fetch := .data fundZeroPe, priceFetch := none }

/-- Closed instance of the C10 theorem: `pe_ratio = 0` excludes the
symbol. -/
theorem zero_pe_or_price_excluded_witness :
    get_fundamental_metrics inpZeroPe.fetch = none ∧ screen_stock inpZeroPe = none :=
  zero_pe_or_price_excluded inpZeroPe fundZeroPe rfl (Or.inl rfl)

/-- A non-empty frame takes the computed-indicators branch. -/
theorem calc_of_ne_nil (pd : PriceData) (h : pd.close.isEmpty = false) :
    calculate_technical_indicators pd =
      { rsi := rsiLastOf pd.close
        macd_signal := macdSignalOf pd.close
        moving_avg_trend := maTrendOf pd.close
        volume_surge := volumeSurgeOf pd } := by
  simp [calculate_technical_indicators, h]

/-- A list with fewer than 14 rows has an all-`NaN` RSI series. -/
theorem rsiList_all_none (closes : List ℚ) (hlen : closes.length < 14) :
    ∀ x ∈ rsiList closes, x = none := by
  intro x hx
  simp only [rsiList, List.mem_map, List.mem_range] at hx
  rcases hx with ⟨i, hi, hfi⟩
  rw [← hfi]
  have h14 : ¬ 14 ≤ i + 1 := by omega
  simp only [rollingMeanAt, if_neg h14]
  rfl

/-- The last entry of a nonempty all-`none` list is `none`. -/
theorem getLast_eq_none_of_all_none (l : List (Option ℚ)) (hne : l ≠ [])
    (h : ∀ x ∈ l, x = none) : l.getLast? = some none := by
  induction l with
  | nil => exact absurd rfl hne
  | cons a l ih =>
    cases l with
    | nil =>
      have ha := h a (List.mem_singleton.mpr rfl)
      simp [ha]
    | cons b m =>
      rw [List.getLast?_cons_cons]
      exact ih (List.cons_ne_nil _ _) fun x hx => h x (List.mem_cons_of_mem _ hx)

/-- The RSI series has one entry per row. -/
theorem rsiList_ne_nil (closes : List ℚ) (h : closes ≠ []) : rsiList closes ≠ [] := by
  have hlen : (rsiList closes).length = closes.length := by simp [rsiList]
  intro hnil
  rw [hnil] at hlen
  exact h (List.length_eq_zero.mp hlen.symm)

/-- On a non-empty series shorter than 14 rows, the reported RSI is the
`NaN` that pandas leaves in the rolling window. -/
theorem rsiLastOf_none_of_short (closes : List ℚ) (h1 : closes ≠ [])
    (h2 : closes.length < 14) : rsiLastOf closes = none := by
  unfold rsiLastOf
  rw [getLast_eq_none_of_all_none _ (rsiList_ne_nil _ h1) (rsiList_all_none _ h2)]

/-- Fewer than 50 rows forces the neutral trend label. -/
theorem maTrendOf_neutral_of_short (closes : List ℚ) (h : closes.length < 50) :
    maTrendOf closes = "NEUTRAL" := by
  unfold maTrendOf
  rw [if_neg (by omega)]

/-- No volume column forces `volume_surge = false`. -/
theorem volumeSurgeOf_false_of_none (pd : PriceData) (h : pd.volume = none) :
    volumeSurgeOf pd = false := by
  simp [volumeSurgeOf, h]

/-- Fewer than 20 rows forces `volume_surge = false`. -/
theorem volumeSurgeOf_false_of_short (pd : PriceData) (h : pd.close.length < 20) :
    volumeSurgeOf pd = false := by
  cases hv : pd.volume with
  | none => exact volumeSurgeOf_false_of_none pd hv
  | some v =>
    unfold volumeSurgeOf
    rw [hv]
    show (if 20 ≤ pd.close.length then _ else false) = false
    rw [if_neg (by omega)]

/-- `isEmpty` is false on a list of positive length. -/
theorem isEmpty_false_of_pos (l : List ℚ) (h : 0 < l.length) : l.isEmpty = false := by
  cases l with
  | nil => simp at h
  | cons a m => rfl

/-- The volume-surge flag of a long-enough frame with a volume column
compares the latest volume against 1.5 times the mean of the last 20
volumes (a window including the latest bar). -/
theorem volume_surge_criterion (pd : PriceData) (v : List ℚ) (c : ℚ)
    (hv : pd.volume = some v) (hc : v.getLast? = some c)
    (hlen : v.length = pd.close.length) (h20 : 20 ≤ pd.close.length) :
    ((calculate_technical_indicators pd).volume_surge = true ↔
      (v.drop (v.length - 20)).sum / 20 * (15 / 10) < c) := by
  rw [calc_of_ne_nil pd (isEmpty_false_of_pos _ (by omega))]
  show volumeSurgeOf pd = true ↔ _
  unfold volumeSurgeOf
  rw [hv]
  show (if 20 ≤ pd.close.length then _ else false) = true ↔ _
  rw [if_pos h20, hc]
  have hroll : rollingMeanLast 20 v = some ((v.drop (v.length - 20)).sum / 20) := by
    unfold rollingMeanLast
    rw [if_pos (by omega)]
    norm_num
  rw [hroll]
  exact decide_eq_true_iff

/-- Empty input returns the neutral defaults. -/
theorem calc_empty (pd : PriceData) (h : pd.close = []) :
    calculate_technical_indicators pd =
      { rsi := some 50, macd_signal := "NEUTRAL", moving_avg_trend := "NEUTRAL",
        volume_surge := false } := by
  simp [calculate_technical_indicators, h]

/-- C5 amended: the volume-surge flag is false whenever the volume
column is absent or there are fewer than 20 rows; with a volume column,
at least 20 rows and a latest volume `c`, it is true exactly when `c`
exceeds 1.5 times the mean of the last 20 volumes, a trailing window
that INCLUDES the latest bar (not the spec's window excluding it). -/
theorem volume_surge_includes_latest_bar :
    ∀ (pd : PriceData) (v : List ℚ) (c : ℚ),
    (pd.volume = none → (calculate_technical_indicators pd).volume_surge = false) ∧
    (pd.close.length < 20 → (calculate_technical_indicators pd).volume_surge = false) ∧
    (pd.volume = some v → v.getLast? = some c → v.length = pd.close.length →
      20 ≤ pd.close.length →
      ((calculate_technical_indicators pd).volume_surge = true ↔
        (v.drop (v.length - 20)).sum / 20 * (15 / 10) < c)) := by
  intro pd v c
  refine ⟨?_, ?_, fun hv hc hlen h20 => volume_surge_criterion pd v c hv hc hlen h20⟩
  · intro h
    by_cases hcl : pd.close.isEmpty
    · rw [calc_empty pd (List.isEmpty_iff.mp hcl)]
    · rw [calc_of_ne_nil pd (Bool.not_eq_true _ ▸ hcl)]
      exact volumeSurgeOf_false_of_none pd h
  · intro h
    by_cases hcl : pd.close.isEmpty
    · rw [calc_empty pd (List.isEmpty_iff.mp hcl)]
    · rw [calc_of_ne_nil pd (Bool.not_eq_true _ ▸ hcl)]
      exact volumeSurgeOf_false_of_short pd h

/-- The volume-surge rule in the words of the specification: the latest
volume must exceed 1.5 times the trailing 20-period average volume
computed EXCLUDING the latest bar; false when the volume column is
absent or there are fewer than 20 observations.  Stated for comparison
with the implemented `volumeSurgeOf`. -/
def spec_volume_surge (pd : PriceData) : Bool :=
  match pd.volume with
  | none => false
  | some v =>
    if 20 ≤ pd.close.length then
      match v.getLast?, rollingMeanLast 20 v.dropLast with
      | some c, some a => decide (a * (15 / 10) < c)
      | _, _ => false
    else false

/-- Volume column used by the C5 counterexample: twenty bars at 100 and
a latest bar at 152. -/
def volSeries21 : List ℚ := List.replicate 20 100 ++ [152]

/-- 21-row frame on which the spec wording and the code disagree. -/
def pdSurge21 : PriceData := { close := List.replicate 21 10, volume := some volSeries21 }

/-- C5 counterexample: on `pdSurge21` the average of the 20 bars before
the latest is 100, so the spec wording (`152 > 150`) flags a surge,
while the code averages the last 20 bars including the latest
(mean 102.6, threshold 153.9) and reports no surge. -/
theorem volume_surge_excluding_latest_refuted :
    spec_volume_surge pdSurge21 = true ∧
    (calculate_technical_indicators pdSurge21).volume_surge = false := by
  constructor
  · unfold spec_volume_surge
    show (match (pdSurge21.volume : Option (List ℚ)) with
      | none => false
      | some v =>
        if 20 ≤ pdSurge21.close.length then
          match v.getLast?, rollingMeanLast 20 v.dropLast with
          | some c, some a => decide (a * (15 / 10) < c)
          | _, _ => false
        else false) = true
    rw [show pdSurge21.volume = some volSeries21 from rfl]
    show (if 20 ≤ pdSurge21.close.length then _ else false) = true
    rw [if_pos (by decide)]
    rw [show volSeries21.getLast? = some 152 from by
      unfold volSeries21; rw [List.getLast?_concat]]
    rw [show volSeries21.dropLast = List.replicate 20 100 from by
      unfold volSeries21; rw [List.dropLast_concat]]
    rw [show rollingMeanLast 20 (List.replicate 20 (100 : ℚ)) = some 100 from by
      unfold rollingMeanLast
      rw [if_pos (by simp)]
      simp [List.sum_replicate, nsmul_eq_mul]
      norm_num]
    show decide ((100 : ℚ) * (15 / 10) < 152) = true
    norm_num
  · have hiff := volume_surge_criterion pdSurge21 volSeries21 152
      rfl
      (by unfold volSeries21; rw [List.getLast?_concat])
      (by decide) (by decide)
    have hnot : ¬ ((volSeries21.drop (volSeries21.length - 20)).sum / 20 * (15 / 10)
        < (152 : ℚ)) := by
      rw [show volSeries21.drop (volSeries21.length - 20)
          = List.replicate 19 (100 : ℚ) ++ [152] from by decide]
      rw [List.sum_append, List.sum_replicate]
      simp only [nsmul_eq_mul, List.sum_cons, List.sum_nil]
      norm_num
    cases hb : (calculate_technical_indicators pdSurge21).volume_surge with
    | false => rfl
    | true => exact absurd (hiff.mp hb) hnot

/-- Volume column used by the C5 witness: nineteen bars at 100 and a
latest bar at 500. -/
def volSeries20 : List ℚ := List.replicate 19 100 ++ [500]

/-- 20-row frame whose latest volume clears the implemented threshold. -/
def pdSurge20 : PriceData := { close := List.replicate 20 10, volume := some volSeries20 }

/-- Closed instance of the amended C5 theorem: on `pdSurge20` the mean
of the last 20 volumes is 120 and `500 > 180`, so the flag is set. -/
theorem volume_surge_includes_latest_bar_witness :
    (calculate_technical_indicators pdSurge20).volume_surge = true := by
  refine ((volume_surge_includes_latest_bar pdSurge20 volSeries20 500).2.2
    rfl
    (by unfold volSeries20; rw [List.getLast?_concat])
    (by decide) (by decide)).mpr ?_
  rw [show volSeries20.drop (volSeries20.length - 20) = volSeries20 from by decide]
  unfold volSeries20
  rw [List.sum_append, List.sum_replicate]
  simp only [nsmul_eq_mul, List.sum_cons, List.sum_nil]
  norm_num

/-- C6 amended: `calculate_technical_indicators` is total and returns
the exact neutral default set on EMPTY input; but on a non-empty series
with fewer than 14 observations the returned rsi is the propagated
`NaN`, not 50 (the `else 50.0` fallback fires only for an empty series,
which the empty-frame branch already intercepts); the trend label does
default to NEUTRAL below 50 rows and the surge flag to false below 20
rows. -/
theorem technical_indicator_defaults :
    ∀ pd : PriceData,
    (pd.close = [] → calculate_technical_indicators pd =
      { rsi := some 50, macd_signal := "NEUTRAL", moving_avg_trend := "NEUTRAL",
        volume_surge := false }) ∧
    (pd.close ≠ [] → pd.close.length < 14 →
      (calculate_technical_indicators pd).rsi = none) ∧
    (pd.close.length < 50 →
      (calculate_technical_indicators pd).moving_avg_trend = "NEUTRAL") ∧
    (pd.close.length < 20 →
      (calculate_technical_indicators pd).volume_surge = false) := by
  intro pd
  refine ⟨fun h => calc_empty pd h, ?_, ?_, ?_⟩
  · intro h1 h2
    rw [calc_of_ne_nil pd (isEmpty_false_of_pos _ (List.length_pos.mpr h1))]
    exact rsiLastOf_none_of_short _ h1 h2
  · intro h
    by_cases hcl : pd.close.isEmpty
    · rw [calc_empty pd (List.isEmpty_iff.mp hcl)]
    · rw [calc_of_ne_nil pd (Bool.not_eq_true _ ▸ hcl)]
      exact maTrendOf_neutral_of_short _ h
  · intro h
    by_cases hcl : pd.close.isEmpty
    · rw [calc_empty pd (List.isEmpty_iff.mp hcl)]
    · rw [calc_of_ne_nil pd (Bool.not_eq_true _ ▸ hcl)]
      exact volumeSurgeOf_false_of_short pd h

/-- C6 counterexample: for the two-bar series `[10, 11]` the rsi entry
is the pandas `NaN` (modelled `none`), not 50, and the MACD label is
`BULLISH_CROSSOVER`, so the result is not the neutral default set. -/
theorem short_series_not_neutral_default :
    (calculate_technical_indicators { close := [10, 11], volume := none }).rsi ≠
      some 50 ∧
    (calculate_technical_indicators { close := [10, 11], volume := none }).rsi =
      none := by
  constructor
  · intro h
    rw [show (calculate_technical_indicators
      { close := [10, 11], volume := none }).rsi = none from by decide] at h
    exact Option.noConfusion h
  · decide

/-- Closed instance of the amended C6 theorem: the empty frame yields
the full neutral default, and the two-bar frame yields a `NaN` rsi, a
NEUTRAL trend and no volume surge. -/
theorem technical_indicator_defaults_witness :
    calculate_technical_indicators { close := [], volume := none } =
      { rsi := some 50, macd_signal := "NEUTRAL", moving_avg_trend := "NEUTRAL",
        volume_surge := false } ∧
    (calculate_technical_indicators { close := [10, 11], volume := none }).rsi =
      none ∧
    (calculate_technical_indicators
      { close := [10, 11], volume := none }).moving_avg_trend = "NEUTRAL" ∧
    (calculate_technical_indicators
      { close := [10, 11], volume := none }).volume_surge = false :=
  ⟨(technical_indicator_defaults _).1 rfl,
    (technical_indicator_defaults _).2.1 (by decide) (by decide),
    (technical_indicator_defaults _).2.2.1 (by decide),
    (technical_indicator_defaults _).2.2.2 (by decide)⟩

/-- C7 amended: the market-cap filter keeps a candidate whose
fundamentals fetch raised, returned a falsy value or returned an
`error` dict; in the data branch it keeps the candidate exactly when
`fundamentals.get('market_cap', 0)` lies in `[500, 50000]` — so a data
dict MISSING the market-cap key defaults to 0, falls outside the band
and is dropped, contrary to the spec's permissive wording. -/
theorem market_cap_filter_policy :
    ∀ fr : FetchResult,
    ((fr = .failure ∨ fr = .empty ∨ fr = .withError) →
      keep_by_market_metrics fr = true) ∧
    (∀ f : FundRaw, fr = .data f →
      (keep_by_market_metrics fr = true ↔
        500 ≤ f.market_cap.getD 0 ∧ f.market_cap.getD 0 ≤ 50000)) ∧
    (∀ f : FundRaw, fr = .data f → f.market_cap = none →
      keep_by_market_metrics fr = false) ∧
    (∀ (stocks : List (String × FetchResult)) (s : String),
      (s, fr) ∈ stocks → keep_by_market_metrics fr = true →
      s ∈ filter_by_market_metrics stocks) := by
  intro fr
  refine ⟨?_, ?_, ?_, ?_⟩
  · rintro (h | h | h) <;> rw [h] <;> rfl
  · intro f hf
    rw [hf]
    exact decide_eq_true_iff
  · intro f hf hmc
    rw [hf]
    show decide (500 ≤ f.market_cap.getD 0 ∧ f.market_cap.getD 0 ≤ 50000) = false
    rw [hmc]
    norm_num
  · intro stocks s hmem hkeep
    unfold filter_by_market_metrics
    refine List.mem_filterMap.mpr ⟨(s, fr), hmem, ?_⟩
    rw [if_pos hkeep]

/-- Raw fundamentals dict with no market-cap key. -/
def fundNoCap : FundRaw :=
  { pe_ratio := some 10
    price := some 100
    market_cap := none
    total_debt := none
    reserves := none
    roe := none
    book_value_per_share := none
    earnings_per_share := none
    roce := none
    dividend_yield := none
    sales := none
    net_profit := none }

/-- C7 counterexample: a candidate whose fundamentals dict lacks the
market-cap key is dropped by the market-cap filter (the key defaults to
0, outside `[500, 50000]`), not retained as the claim states. -/
theorem missing_market_cap_dropped :
    "XYZ" ∉ filter_by_market_metrics [("XYZ", FetchResult.data fundNoCap)] := by
  decide

/-- Closed instance of the amended C7 theorem: an error fetch is kept. -/
theorem market_cap_filter_policy_witness :
    keep_by_market_metrics .withError = true ∧
    "ERR" ∈ filter_by_market_metrics [("ERR", FetchResult.withError)] := by
  have h := market_cap_filter_policy .withError
  exact ⟨h.1 (Or.inr (Or.inr rfl)),
    h.2.2.2 [("ERR", FetchResult.withError)] "ERR" (List.mem_singleton.mpr rfl)
      (h.1 (Or.inr (Or.inr rfl)))⟩

/-- C8 counterexample: two requests both handled before either
background task starts each schedule a scan (`reqStarted` twice), and
both tasks then begin (`beginScan` twice), reaching a state with TWO
orchestrator runs executing concurrently — the in-progress flag, set
only when a task starts, does not prevent the second run. -/
theorem two_concurrent_scans_reachable :
    RouteReachable { scan_in_progress := true, queued := 0, running := 2 } := by
  have h0 := RouteReachable.init
  have h1 := RouteReachable.step h0 (RouteStep.reqStarted _ rfl)
  have h2 := RouteReachable.step h1 (RouteStep.reqStarted _ rfl)
  have h3 := RouteReachable.step h2 (RouteStep.beginScan _ (by decide))
  have h4 := RouteReachable.step h3 (RouteStep.beginScan _ (by decide))
  exact h4

/-- C8 amended: a request handled while the in-progress flag is set is
answered with the in-progress status and neither schedules nor starts a
scan; the flag is cleared on both the normal and the exceptional exit
of a scan and set when a scan begins; but because the flag is set by
the background task itself (after the route has already responded), two
requests that both check the flag before either task starts can
schedule two concurrent scans (see the counterexample). -/
theorem scan_route_flag_policy :
    ∀ (s : RouteState) (l : ScanLabel) (s2 : RouteState), RouteStep s l s2 →
    (s.scan_in_progress = true →
      (l = .reqInProgress ∨ l = .reqCached ∨ l = .reqStarted) →
      l = .reqInProgress ∧ s2 = s) ∧
    ((l = .finishOk ∨ l = .finishErr) → s2.scan_in_progress = false) ∧
    (l = .beginScan → s2.scan_in_progress = true) := by
  intro s l s2 hstep
  cases hstep <;> simp_all

/-- Closed instance of the amended C8 theorem: with the flag set, a
request step is the in-progress answer and leaves the state unchanged. -/
theorem scan_route_flag_policy_witness :
    ScanLabel.reqInProgress = ScanLabel.reqInProgress ∧
    ({ scan_in_progress := true, queued := 0, running := 1 } : RouteState) =
      { scan_in_progress := true, queued := 0, running := 1 } :=
  (scan_route_flag_policy
    { scan_in_progress := true, queued := 0, running := 1 } .reqInProgress
    { scan_in_progress := true, queued := 0, running := 1 }
    (RouteStep.reqInProgress _ rfl)).1 rfl (Or.inl rfl)
